import Mathlib

/-! # EVEmu: station type and station loaders, mission manager handler

A shallow embedding of

* `include/server/station/Station.h`: `StationTypeData`, `StationType` (accessors,
  the template loader `StationType::_Load<_Ty>`, the virtual `_Load`), `StationData`,
  `Station` (`Load`, the virtual `_Load`);
* `src/server/missions/MissionMgrService.cpp`: `Handle_GetMyCourierMissions`.

Conventions.

* `uint32` values are natural numbers; the embedded code never does arithmetic on them.
* A pointer result (`_Ty *`, `PyRep *`) is an `Option`: `none` is `NULL`.
* Effects are explicit. A loader takes the factory state and the trace of events so far
  and returns its result together with the new factory state and the extended trace.
  The trace records every log record the code writes and every call it makes into
  code outside the two files.
* Types and functions that the two files use but do not define (`Group`, `TypeData`,
  `ItemFactory`, the database, the base classes) are type parameters and fields of
  `Externals`.
-/

namespace EVEmu

/-- Log categories written to by the embedded code. -/
inductive LogType
  | ITEM__ERROR
  | SERVICE__ERROR
  deriving DecidableEq, Repr

/-- A C++ double, carried by its IEEE-754 binary64 bit pattern. The embedded code only
stores and returns doubles; it never computes with them. -/
structure Double where
  bits : Nat
  deriving DecidableEq, Repr

/-- The double `0.0`. -/
def Double.zero : Double := ⟨0⟩

/-- Point in space: `GPoint(x, y, z)`. -/
structure GPoint where
  x : Double
  y : Double
  z : Double
  deriving DecidableEq, Repr

/-- Direction in space: `GVector(x, y, z)`. -/
structure GVector where
  x : Double
  y : Double
  z : Double
  deriving DecidableEq, Repr

/-- Station type data container: the data members of `class StationTypeData`. -/
structure StationTypeData where
  dockingBayGraphicID : Nat
  hangarGraphicID : Nat
  dockEntry : GPoint
  dockOrientation : GVector
  operationID : Nat
  officeSlots : Nat
  reprocessingEfficiency : Double
  conquerable : Bool
  deriving DecidableEq, Repr

/-- Modelled from the spec: the body of the constructor of `StationTypeData` (declared in
`Station.h`, defined in `Station.cpp`) is missing. `StationTypeData` is a value type
holding the station-type fields, so each argument is stored in the member of its name. -/
def StationTypeData.ctor (_dockingBayGraphicID : Nat) (_hangarGraphicID : Nat)
    (_dockEntry : GPoint) (_dockOrientation : GVector) (_operationID : Nat)
    (_officeSlots : Nat) (_reprocessingEfficiency : Double) (_conquerable : Bool) :
    StationTypeData :=
  { dockingBayGraphicID := _dockingBayGraphicID
    hangarGraphicID := _hangarGraphicID
    dockEntry := _dockEntry
    dockOrientation := _dockOrientation
    operationID := _operationID
    officeSlots := _officeSlots
    reprocessingEfficiency := _reprocessingEfficiency
    conquerable := _conquerable }

/-- The declaration `StationTypeData stData;`: every constructor argument takes the default
given in the header (`0`, `0`, `GPoint(0, 0, 0)`, `GVector(0, 0, 0)`, `0`, `0`, `0.0`,
`false`). -/
def StationTypeData.default : StationTypeData :=
  StationTypeData.ctor 0 0 ⟨Double.zero, Double.zero, Double.zero⟩
    ⟨Double.zero, Double.zero, Double.zero⟩ 0 0 Double.zero false

/-- The two logging calls used by the embedded code. -/
inductive LogCall
  | _log
  | codelog
  deriving DecidableEq, Repr

/-- One log record: the logging call, the category, the format string and the string
arguments that fill it. -/
structure LogRecord where
  call : LogCall
  type : LogType
  fmt : String
  args : List String
  deriving DecidableEq, Repr

/-- What the code does that is visible from outside: log records and calls into code that
is not part of `Station.h`. `G` is `Group`, `TD` is `TypeData`. -/
inductive Event (G TD : Type)
  -- `_log(type, fmt, args...)`
  | log (record : LogRecord)
  -- `factory.db().GetStationType(stationTypeID, stData)`
  | GetStationType (stationTypeID : Nat)
  -- `_Ty::_Load(factory, stationTypeID, group, data, stData)`
  | Ty_Load (stationTypeID : Nat) (group : G) (data : TD) (stData : StationTypeData)

/-- What `Station.h` uses from the rest of the server. `F` is the state of the
`ItemFactory` (its database included), `G` is `Group`, `TD` is `TypeData`. -/
structure Externals (F G TD : Type) where
  -- `EVEDB::invGroups::Station`
  Station : Nat
  -- `Group::id()`
  id : G → Nat
  -- `Group::name()`
  name : G → String
  -- `factory.db().GetStationType(stationTypeID, stData)`: the `bool` it returns, the
  -- contents of `stData` after the call, and the factory state after the call
  GetStationType : F → Nat → StationTypeData → Bool × StationTypeData × F

/-- Result of running a loader: the returned value, the factory state and the trace. -/
structure Outcome (α F E : Type) where
  result : α
  factory : F
  trace : List E

/-- The next-layer loader `_Ty::_Load(factory, stationTypeID, group, data, stData)` of the
template parameter `_Ty`: the pointer it returns and the factory state it leaves. -/
abbrev NextLoad (F G TD Ty : Type) : Type :=
  F → Nat → G → TD → StationTypeData → Option Ty × F

/-- The template loader `StationType::_Load<_Ty>(factory, stationTypeID, group, data)`. -/
def StationType._Load {F G TD Ty : Type} (X : Externals F G TD) (Ty_Load : NextLoad F G TD Ty)
    (factory : F) (stationTypeID : Nat) (group : G) (data : TD) (tr : List (Event G TD)) :
    Outcome (Option Ty) F (Event G TD) :=
  -- verify it's a station type
  if X.id group ≠ X.Station then
    { result := none
      factory := factory
      trace := tr ++ [Event.log ⟨LogCall._log, LogType.ITEM__ERROR,
        "Trying to load %s as Station.", [X.name group]⟩] }
  else
    -- get station type data
    let stData := StationTypeData.default
    match X.GetStationType factory stationTypeID stData with
    | (false, _, factory1) =>
      { result := none
        factory := factory1
        trace := tr ++ [Event.GetStationType stationTypeID] }
    | (true, stData1, factory1) =>
      match Ty_Load factory1 stationTypeID group data stData1 with
      | (r, factory2) =>
        { result := r
          factory := factory2
          trace := tr ++ [Event.GetStationType stationTypeID,
            Event.Ty_Load stationTypeID group data stData1] }

/-- Whether an event is a call of the next-layer loader `_Ty::_Load`. -/
def Event.isTyLoad {G TD : Type} : Event G TD → Bool
  | Event.Ty_Load _ _ _ _ => true
  | _ => false

/-- Whether an event is a log record. -/
def Event.isLog {G TD : Type} : Event G TD → Bool
  | Event.log _ => true
  | _ => false

/-- Type of station: the `Type` base sub-object (`T` is `Type`) and the data members of
`class StationType`. -/
structure StationType (T : Type) where
  toType : T
  m_dockingBayGraphicID : Nat
  m_hangarGraphicID : Nat
  m_dockEntry : GPoint
  m_dockOrientation : GVector
  m_operationID : Nat
  m_officeSlots : Nat
  m_reprocessingEfficiency : Double
  m_conquerable : Bool

/-- Accessor `StationType::dockingBayGraphicID()`. -/
def StationType.dockingBayGraphicID {T : Type} (self : StationType T) : Nat :=
  self.m_dockingBayGraphicID

/-- Accessor `StationType::hangarGraphicID()`. -/
def StationType.hangarGraphicID {T : Type} (self : StationType T) : Nat :=
  self.m_hangarGraphicID

/-- Accessor `StationType::dockEntry()`. -/
def StationType.dockEntry {T : Type} (self : StationType T) : GPoint :=
  self.m_dockEntry

/-- Accessor `StationType::dockOrientation()`. -/
def StationType.dockOrientation {T : Type} (self : StationType T) : GVector :=
  self.m_dockOrientation

/-- Accessor `StationType::operationID()`. -/
def StationType.operationID {T : Type} (self : StationType T) : Nat :=
  self.m_operationID

/-- Accessor `StationType::officeSlots()`. -/
def StationType.officeSlots {T : Type} (self : StationType T) : Nat :=
  self.m_officeSlots

/-- Accessor `StationType::reprocessingEfficiency()`. -/
def StationType.reprocessingEfficiency {T : Type} (self : StationType T) : Double :=
  self.m_reprocessingEfficiency

/-- Accessor `StationType::conquerable()`. -/
def StationType.conquerable {T : Type} (self : StationType T) : Bool :=
  self.m_conquerable

/-- Modelled from the spec: the body of the protected constructor
`StationType(_id, _group, _data, _stData)` (declared in `Station.h`, defined in
`Station.cpp`) is missing. The spec has the concrete type object constructed bottom-up
from the base data and the fetched StationTypeData fields, which it then owns as read-only
accessors: the `Type` sub-object is built by the constructor of `Type` (`Type_ctor`) and
each member takes the field of `_stData` of its name. -/
def StationType.ctor {G TD T : Type} (Type_ctor : Nat → G → TD → T) (_id : Nat) (_group : G)
    (_data : TD) (_stData : StationTypeData) : StationType T :=
  { toType := Type_ctor _id _group _data
    m_dockingBayGraphicID := _stData.dockingBayGraphicID
    m_hangarGraphicID := _stData.hangarGraphicID
    m_dockEntry := _stData.dockEntry
    m_dockOrientation := _stData.dockOrientation
    m_operationID := _stData.operationID
    m_officeSlots := _stData.officeSlots
    m_reprocessingEfficiency := _stData.reprocessingEfficiency
    m_conquerable := _stData.conquerable }

/-- Modelled from the spec: the body of the overload
`StationType::_Load(factory, stationTypeID, group, data, stData)` (declared in `Station.h`,
defined in `Station.cpp`) is missing. It is the last step of the chain, where the spec
says "construct the concrete Type object bottom-up ... return it": a new `StationType`
built from the arguments, the factory left as it is. -/
def StationType._Load_stData {F G TD T : Type} (Type_ctor : Nat → G → TD → T) :
    NextLoad F G TD (StationType T) :=
  fun factory stationTypeID group data stData =>
    (some (StationType.ctor Type_ctor stationTypeID group data stData), factory)

/-- The virtual `StationType::_Load(ItemFactory &factory)`, whose body is
`return Type::_Load(factory);`. `Type_Load` is `Type::_Load`, a member function of the
`Type` sub-object: it returns a `bool` and may change that sub-object and the factory. -/
def StationType._Load_virtual {F T : Type} (Type_Load : T → F → Bool × T × F)
    (self : StationType T) (factory : F) : Bool × StationType T × F :=
  match Type_Load self.toType factory with
  | (r, t, factory1) => (r, { self with toType := t }, factory1)

/-- Data container for station: the data members of `class StationData`.
`EVEItemFlags` is an enumeration, carried by its number. -/
structure StationData where
  security : Nat
  dockingCostPerVolume : Double
  maxShipVolumeDockable : Double
  officeRentalCost : Nat
  operationID : Nat
  reprocessingEfficiency : Double
  reprocessingStationsTake : Double
  reprocessingHangarFlag : Nat
  deriving DecidableEq, Repr

/-- CelestialObject which represents station: the `CelestialObject` base sub-object (`C` is
`CelestialObject`) and the data members of `class Station`. -/
structure Station (C : Type) where
  toCelestialObject : C
  m_security : Nat
  m_dockingCostPerVolume : Double
  m_maxShipVolumeDockable : Double
  m_officeRentalCost : Nat
  m_operationID : Nat
  m_reprocessingEfficiency : Double
  m_reprocessingStationsTake : Double
  m_reprocessingHangarFlag : Nat

/-- Accessor `Station::security()`. -/
def Station.security {C : Type} (self : Station C) : Nat :=
  self.m_security

/-- Accessor `Station::officeRentalCost()`. -/
def Station.officeRentalCost {C : Type} (self : Station C) : Nat :=
  self.m_officeRentalCost

/-- The static `Station::Load(factory, stationID, recurse = false)`, whose body is
`return InventoryItem::_Load<Station>(factory, stationID, recurse);`.
`InventoryItem_Load` is `InventoryItem::_Load<Station>`: the pointer it returns and the
factory state it leaves; `S` is the class `Station`. -/
def Station.Load {F S : Type} (InventoryItem_Load : F → Nat → Bool → Option S × F)
    (factory : F) (stationID : Nat) (recurse : Bool := false) : Option S × F :=
  InventoryItem_Load factory stationID recurse

/-- The virtual `Station::_Load(bool recurse = false)`, whose body is
`return CelestialObject::_Load(recurse);`. `CelestialObject_Load` is
`CelestialObject::_Load`, a member function of the `CelestialObject` sub-object: it returns
a `bool` and may change that sub-object and, through it, the world `W` around it. -/
def Station._Load_virtual {W C : Type} (CelestialObject_Load : C → Bool → W → Bool × C × W)
    (world : W) (self : Station C) (recurse : Bool := false) : Bool × Station C × W :=
  match CelestialObject_Load self.toCelestialObject recurse world with
  | (r, c, world1) => (r, { self with toCelestialObject := c }, world1)

/-- A `PyResult`, which `return NULL;` builds from a null `PyRep` pointer. -/
abbrev PyResult (PyRep : Type) : Type := Option PyRep

/-- The handler `MissionMgrService::Handle_GetMyCourierMissions(PyCallArgs &call)`: `self` is
the service object, `call` the call arguments, `log` the log so far. -/
def MissionMgrService.Handle_GetMyCourierMissions {S A PyRep : Type} (_self : S) (_call : A)
    (log : List LogRecord) : PyResult PyRep × List LogRecord :=
  (none, log ++ [⟨LogCall.codelog, LogType.SERVICE__ERROR,
    "GetMyCourierMissions unimplemented", []⟩])

/-- Modelled from the spec: the `ItemFactory` is missing. Its state, as far as the entity
loader of spec 4.2 uses it: the state `TS` of the type registry (4.1) and the entity cache
(4.4), which "maps entity identifier to the single live instance"; `E` is the class of the
cached entities. -/
structure ItemFactory (TS E : Type) where
  types : TS
  cache : Nat → Option E

/-- Modelled from the spec: the entity cache is missing; this is its `Get(id) -> handle |
absent` of spec 4.4. -/
def ItemFactory.Get {TS E : Type} (factory : ItemFactory TS E) (id : Nat) : Option E :=
  factory.cache id

/-- Modelled from the spec: the entity cache is missing; this is its `Insert(id, object)` of
spec 4.4. -/
def ItemFactory.Insert {TS E : Type} (factory : ItemFactory TS E) (id : Nat) (object : E) :
    ItemFactory TS E :=
  { factory with cache := fun k => if k = id then some object else factory.cache k }

/-- Modelled from the spec: what the station entity loader uses and neither file defines.
The storage read contract of spec 6 for the three layers of a station (`GetItem` is
`GetEntity(entityID) -> EntityRow | absent`; `GetCelestialObject` and `GetStation` are
`GetSubtypeEntityData(entityID) -> SubtypeRow | absent` for the celestial-object and the
station layer), all pure lookups; the type identifier of an entity row; `LoadType` of spec
4.1 for station types; the constructor of the `CelestialObject` base; the Recursive
Containment Loader of spec 4.3. `ST` is `StationType`, `ID` is `ItemData`, `CD` is
`CelestialObjectData`, `C` is `CelestialObject`. -/
structure EntityExternals (TS ST ID CD C : Type) where
  GetItem : Nat → Option ID
  GetCelestialObject : Nat → Option CD
  GetStation : Nat → Option StationData
  typeID : ID → Nat
  LoadStationType : TS → Nat → Option ST × TS
  CelestialObject_ctor : Nat → ST → ID → CD → C
  LoadContained : Station C → ItemFactory TS (Station C) →
    Station C × ItemFactory TS (Station C)

/-- Modelled from the spec: the body of the protected constructor
`Station(_factory, _stationID, _type, _data, _cData, _stData)` (declared in `Station.h`,
defined in `Station.cpp`) is missing. The entity holds the EntityData fields it is
constructed with: the base sub-object is built by the constructor of `CelestialObject` and
each member takes the field of `_stData` of its name. -/
def Station.ctor {ST ID CD C : Type} (CelestialObject_ctor : Nat → ST → ID → CD → C)
    (_stationID : Nat) (_type : ST) (_data : ID) (_cData : CD) (_stData : StationData) :
    Station C :=
  { toCelestialObject := CelestialObject_ctor _stationID _type _data _cData
    m_security := _stData.security
    m_dockingCostPerVolume := _stData.dockingCostPerVolume
    m_maxShipVolumeDockable := _stData.maxShipVolumeDockable
    m_officeRentalCost := _stData.officeRentalCost
    m_operationID := _stData.operationID
    m_reprocessingEfficiency := _stData.reprocessingEfficiency
    m_reprocessingStationsTake := _stData.reprocessingStationsTake
    m_reprocessingHangarFlag := _stData.reprocessingHangarFlag }

/-- Modelled from the spec: the body of
`Station::_Load(factory, stationID, type, data, cData, stData)` (declared in `Station.h`) is
missing. Spec 4.2 step 5: "Construct the concrete object". -/
def Station._Load_stData {TS ST ID CD C : Type} (X : EntityExternals TS ST ID CD C)
    (stationID : Nat) (type : ST) (data : ID) (cData : CD) (stData : StationData) :
    Option (Station C) :=
  some (Station.ctor X.CelestialObject_ctor stationID type data cData stData)

/-- Modelled from the spec: the body of `Station::_Load(factory, stationID, type, data, cData)`
(declared in `Station.h`) is missing. Spec 4.2 steps 4 and 6: the station layer fetches its
StationData; no row aborts the chain. -/
def Station._Load_cData {TS ST ID CD C : Type} (X : EntityExternals TS ST ID CD C)
    (stationID : Nat) (type : ST) (data : ID) (cData : CD) : Option (Station C) :=
  match X.GetStation stationID with
  | none => none
  | some stData => Station._Load_stData X stationID type data cData stData

/-- Modelled from the spec: the body of `Station::_Load(factory, stationID, type, data)`
(declared in `Station.h`) is missing. Spec 4.2 steps 4 and 6: the celestial-object layer
fetches its CelestialObjectData; no row aborts the chain. -/
def Station._Load_data {TS ST ID CD C : Type} (X : EntityExternals TS ST ID CD C)
    (stationID : Nat) (type : ST) (data : ID) : Option (Station C) :=
  match X.GetCelestialObject stationID with
  | none => none
  | some cData => Station._Load_cData X stationID type data cData

/-- Modelled from the spec: the body of `Station::_Load(factory, stationID)` (declared in
`Station.h`) is missing. Spec 4.2 steps 2 and 6: read the base entity record to discover the
type identifier, resolve the Type via 4.1, and go on to the next layer; no row, or no type,
aborts the chain. -/
def Station._Load_id {TS ST ID CD C : Type} (X : EntityExternals TS ST ID CD C)
    (types : TS) (stationID : Nat) : Option (Station C) × TS :=
  match X.GetItem stationID with
  | none => (none, types)
  | some data =>
    match X.LoadStationType types (X.typeID data) with
    | (none, types1) => (none, types1)
    | (some type, types1) => (Station._Load_data X stationID type data, types1)

/-- Modelled from the spec: `InventoryItem::_Load<Station>(factory, stationID, recurse)` is
missing. It is `LoadEntity(entityID, recurse)` of spec 4.2 with the station loader chosen:
step 1, a cached entity is returned at once; steps 2 to 4, otherwise the layered chain
runs; step 6, if it fails nothing is cached and the result is `NULL`; step 5, otherwise the
object is inserted into the cache and, if `recurse` is set, the Recursive Containment
Loader runs on it before it is returned (the object it leaves is the cached one). -/
def InventoryItem._Load {TS ST ID CD C : Type} (X : EntityExternals TS ST ID CD C)
    (factory : ItemFactory TS (Station C)) (stationID : Nat) (recurse : Bool) :
    Option (Station C) × ItemFactory TS (Station C) :=
  match factory.Get stationID with
  | some object => (some object, factory)
  | none =>
    match Station._Load_id X factory.types stationID with
    | (none, types1) => (none, { factory with types := types1 })
    | (some object, types1) =>
      let factory1 := ItemFactory.Insert { factory with types := types1 } stationID object
      if recurse then
        match X.LoadContained object factory1 with
        | (object1, factory2) => (some object1, factory2.Insert stationID object1)
      else
        (some object, factory1)

/-! ## Concrete scenario

Storage has type 5000, group Station, with the station-type row
`(dockingBayGraphicID = 12, hangarGraphicID = 34, officeSlots = 5,
reprocessingEfficiency = 0.5, conquerable = false)`; entity 900001 references type 5000. -/

/-- The double `0.5`. -/
def Double.half : Double := ⟨0x3FE0000000000000⟩

/-- The station-type row of type 5000. -/
def scenarioRow : StationTypeData :=
  StationTypeData.ctor 12 34 ⟨Double.zero, Double.zero, Double.zero⟩
    ⟨Double.zero, Double.zero, Double.zero⟩ 0 5 Double.half false

/-- A server whose factory has no state of its own, whose groups are a number and a name,
whose Station group has number 15, and whose database holds the station-type row of
type 5000 and no other. -/
def scenarioExternals : Externals Unit (Nat × String) Unit where
  Station := 15
  id := fun group => group.1
  name := fun group => group.2
  GetStationType := fun factory stationTypeID stData =>
    if stationTypeID = 5000 then (true, scenarioRow, factory) else (false, stData, factory)

/-- The Station group. -/
def stationGroup : Nat × String := (15, "Station")

/-- A group that is not the Station group. -/
def frigateGroup : Nat × String := (25, "Frigate")

/-- A next-layer loader that builds an object showing the arguments it was given. -/
def scenarioNext : NextLoad Unit (Nat × String) Unit (Nat × (Nat × String) × StationTypeData) :=
  fun factory stationTypeID group _ stData => (some (stationTypeID, group, stData), factory)

/-- Entity storage in which entity 900001 has an item row (of type 5000) and a
celestial-object row but no station row; types always resolve; nothing is contained. -/
def scenarioEntities : EntityExternals Unit Unit Nat Unit Unit where
  GetItem := fun id => if id = 900001 then some 5000 else none
  GetCelestialObject := fun id => if id = 900001 then some () else none
  GetStation := fun _ => none
  typeID := fun data => data
  LoadStationType := fun types _ => (some (), types)
  CelestialObject_ctor := fun _ _ _ _ => ()
  LoadContained := fun object factory => (object, factory)

/-- A factory with nothing cached. -/
def emptyFactory : ItemFactory Unit (Station Unit) where
  types := ()
  cache := fun _ => none

/-! ## Theorems -/

/-- C1. Category enforcement: when the group is not the Station group, the template loader
returns NULL, leaves the factory as it was, and does nothing but write the error record
"Trying to load %s as Station." with the group name: the database is not read and the
next-layer loader is not called, whatever the storage holds. -/
theorem StationType_Load_group_mismatch {F G TD Ty : Type} (X : Externals F G TD)
    (Ty_Load : NextLoad F G TD Ty) (factory : F) (stationTypeID : Nat) (group : G) (data : TD)
    (tr : List (Event G TD)) (hgroup : X.id group ≠ X.Station) :
    (StationType._Load X Ty_Load factory stationTypeID group data tr).result = none ∧
    (StationType._Load X Ty_Load factory stationTypeID group data tr).factory = factory ∧
    (StationType._Load X Ty_Load factory stationTypeID group data tr).trace =
      tr ++ [Event.log ⟨LogCall._log, LogType.ITEM__ERROR, "Trying to load %s as Station.",
        [X.name group]⟩] ∧
    ((StationType._Load X Ty_Load factory stationTypeID group data tr).trace.filter
      Event.isTyLoad) = tr.filter Event.isTyLoad := by
  simp [StationType._Load, hgroup, Event.isTyLoad]

/-- Witness of C1: type 5000 has a station-type row, yet loading it under the Frigate group
gives NULL. -/
theorem StationType_Load_group_mismatch_witness :
    scenarioExternals.id frigateGroup ≠ scenarioExternals.Station ∧
    (StationType._Load scenarioExternals scenarioNext () 5000 frigateGroup () []).result
      = none :=
  ⟨by decide,
   (StationType_Load_group_mismatch scenarioExternals scenarioNext () 5000 frigateGroup () []
      (by decide)).1⟩

/-- C2. Storage absence: when the group is the Station group and `GetStationType` reports
failure, the template loader returns NULL, the only thing it did is the database read, and
the next-layer loader was not called (not with the default-constructed data, not at all). -/
theorem StationType_Load_row_absent {F G TD Ty : Type} (X : Externals F G TD)
    (Ty_Load : NextLoad F G TD Ty) (factory : F) (stationTypeID : Nat) (group : G) (data : TD)
    (tr : List (Event G TD)) (hgroup : X.id group = X.Station)
    (hrow : (X.GetStationType factory stationTypeID StationTypeData.default).1 = false) :
    (StationType._Load X Ty_Load factory stationTypeID group data tr).result = none ∧
    (StationType._Load X Ty_Load factory stationTypeID group data tr).factory =
      (X.GetStationType factory stationTypeID StationTypeData.default).2.2 ∧
    (StationType._Load X Ty_Load factory stationTypeID group data tr).trace =
      tr ++ [Event.GetStationType stationTypeID] ∧
    ((StationType._Load X Ty_Load factory stationTypeID group data tr).trace.filter
      Event.isTyLoad) = tr.filter Event.isTyLoad := by
  rcases hdb : X.GetStationType factory stationTypeID StationTypeData.default with
    ⟨ok, stData1, factory1⟩
  rw [hdb] at hrow
  simp only at hrow
  subst hrow
  simp [StationType._Load, hgroup, hdb, Event.isTyLoad]

/-- Witness of C2: type 6000 has no station-type row; loading it under the Station group
gives NULL. -/
theorem StationType_Load_row_absent_witness :
    (StationType._Load scenarioExternals scenarioNext () 6000 stationGroup () []).result
      = none :=
  (StationType_Load_row_absent scenarioExternals scenarioNext () 6000 stationGroup () []
    (by decide) (by decide)).1

/-- C3. Successful composition: when the group is the Station group and `GetStationType`
succeeds with row `s`, the template loader returns what the next-layer loader returns for
the same identifier, the same group, the same type data and the row `s`; the factory is the
one that loader leaves; the loader was called once, after the database read, with exactly
these arguments; the result is non-NULL exactly when the next layer's is. -/
theorem StationType_Load_row_present {F G TD Ty : Type} (X : Externals F G TD)
    (Ty_Load : NextLoad F G TD Ty) (factory factory1 : F) (stationTypeID : Nat) (group : G)
    (data : TD) (s : StationTypeData) (tr : List (Event G TD))
    (hgroup : X.id group = X.Station)
    (hrow : X.GetStationType factory stationTypeID StationTypeData.default
      = (true, s, factory1)) :
    (StationType._Load X Ty_Load factory stationTypeID group data tr).result =
      (Ty_Load factory1 stationTypeID group data s).1 ∧
    (StationType._Load X Ty_Load factory stationTypeID group data tr).factory =
      (Ty_Load factory1 stationTypeID group data s).2 ∧
    (StationType._Load X Ty_Load factory stationTypeID group data tr).trace =
      tr ++ [Event.GetStationType stationTypeID,
        Event.Ty_Load stationTypeID group data s] ∧
    ((StationType._Load X Ty_Load factory stationTypeID group data tr).result ≠ none ↔
      (Ty_Load factory1 stationTypeID group data s).1 ≠ none) := by
  simp [StationType._Load, hgroup, hrow]

/-- Witness of C3: loading type 5000 under the Station group hands the identifier, the group
and the stored row to the next layer. -/
theorem StationType_Load_row_present_witness :
    (StationType._Load scenarioExternals scenarioNext () 5000 stationGroup () []).result
      = some (5000, stationGroup, scenarioRow) :=
  (StationType_Load_row_present scenarioExternals scenarioNext () () 5000 stationGroup ()
    scenarioRow [] (by decide) rfl).1

/-- C4. Loaded fields equal the stored row: when the group is the Station group and storage
holds the station-type row `row` for `typeID`, loading `typeID` as a `StationType` returns an
object, and each of its eight accessors returns the field of `row` of the same name. -/
theorem StationType_Load_fields {F G TD T : Type} (X : Externals F G TD)
    (Type_ctor : Nat → G → TD → T) (factory factory1 : F) (typeID : Nat) (group : G)
    (data : TD) (row : StationTypeData) (tr : List (Event G TD))
    (hgroup : X.id group = X.Station)
    (hrow : X.GetStationType factory typeID StationTypeData.default
      = (true, row, factory1)) :
    ∃ st : StationType T,
      (StationType._Load X (StationType._Load_stData Type_ctor) factory typeID group data
        tr).result = some st ∧
      st.dockingBayGraphicID = row.dockingBayGraphicID ∧
      st.hangarGraphicID = row.hangarGraphicID ∧
      st.dockEntry = row.dockEntry ∧
      st.dockOrientation = row.dockOrientation ∧
      st.operationID = row.operationID ∧
      st.officeSlots = row.officeSlots ∧
      st.reprocessingEfficiency = row.reprocessingEfficiency ∧
      st.conquerable = row.conquerable := by
  refine ⟨StationType.ctor Type_ctor typeID group data row, ?_, rfl, rfl, rfl, rfl, rfl, rfl,
    rfl, rfl⟩
  simp [StationType._Load, StationType._Load_stData, hgroup, hrow]

/-- Witness of C4: the concrete scenario. Loading type 5000 returns a station type whose
`officeSlots()` is 5. -/
theorem StationType_Load_fields_witness :
    ∃ st : StationType Nat,
      (StationType._Load scenarioExternals (StationType._Load_stData fun id _ _ => id) ()
        5000 stationGroup () []).result = some st ∧
      st.officeSlots = 5 :=
  match StationType_Load_fields scenarioExternals (fun id _ _ => id) () () 5000 stationGroup
    () scenarioRow [] (by decide) rfl with
  | ⟨st, hst, _, _, _, _, _, hslots, _, _⟩ => ⟨st, hst, hslots⟩

/-- C5, as stated, fails: the result of a group mismatch (type 5000 under the Frigate group)
and the result of an absent row (type 6000 under the Station group) are not distinct
values. -/
theorem StationType_Load_failures_not_distinct :
    ¬ ((StationType._Load scenarioExternals scenarioNext () 5000 frigateGroup () []).result ≠
       (StationType._Load scenarioExternals scenarioNext () 6000 stationGroup () []).result) := by
  simp [StationType._Load, scenarioExternals, frigateGroup, stationGroup]

/-- C5, amended. A group mismatch and an absent station-type row are both reported by
NULL, the same value; what tells them apart is the log: the group mismatch writes one
error record, "Trying to load %s as Station." with the group name, and the absent row
writes no record in this loader. -/
theorem StationType_Load_failures {F G TD Ty : Type} (X : Externals F G TD)
    (Ty_Load : NextLoad F G TD Ty) (factoryA factoryB : F) (idA idB : Nat) (groupA groupB : G)
    (dataA dataB : TD) (tr : List (Event G TD))
    (hmismatch : X.id groupA ≠ X.Station)
    (hgroup : X.id groupB = X.Station)
    (hrow : (X.GetStationType factoryB idB StationTypeData.default).1 = false) :
    (StationType._Load X Ty_Load factoryA idA groupA dataA tr).result = none ∧
    (StationType._Load X Ty_Load factoryB idB groupB dataB tr).result = none ∧
    (StationType._Load X Ty_Load factoryA idA groupA dataA tr).result =
      (StationType._Load X Ty_Load factoryB idB groupB dataB tr).result ∧
    ((StationType._Load X Ty_Load factoryA idA groupA dataA tr).trace.filter Event.isLog) =
      tr.filter Event.isLog ++ [Event.log ⟨LogCall._log, LogType.ITEM__ERROR,
        "Trying to load %s as Station.", [X.name groupA]⟩] ∧
    ((StationType._Load X Ty_Load factoryB idB groupB dataB tr).trace.filter Event.isLog) =
      tr.filter Event.isLog := by
  rcases hdb : X.GetStationType factoryB idB StationTypeData.default with
    ⟨ok, stData1, factory1⟩
  rw [hdb] at hrow
  simp only at hrow
  subst hrow
  simp [StationType._Load, hmismatch, hgroup, hdb, Event.isLog]

/-- Witness of C5, amended: type 5000 under the Frigate group and type 6000 under the
Station group both give NULL. -/
theorem StationType_Load_failures_witness :
    (StationType._Load scenarioExternals scenarioNext () 5000 frigateGroup () []).result =
      (StationType._Load scenarioExternals scenarioNext () 6000 stationGroup () []).result :=
  (StationType_Load_failures scenarioExternals scenarioNext () () 5000 6000 frigateGroup
    stationGroup () () [] (by decide) (by decide) (by decide)).2.2.1

/-- C7. All-or-nothing construction: when the entity is not cached, so that the load reads
storage, and the item row, the celestial-object row or the station row of `stationID` is
absent, `Station::Load` returns NULL, the cache is what it was, and it has no entry for
`stationID`. -/
theorem Station_Load_layer_absent {TS ST ID CD C : Type} (X : EntityExternals TS ST ID CD C)
    (factory : ItemFactory TS (Station C)) (stationID : Nat) (recurse : Bool)
    (hmiss : factory.Get stationID = none)
    (habsent : X.GetItem stationID = none ∨ X.GetCelestialObject stationID = none ∨
      X.GetStation stationID = none) :
    (Station.Load (InventoryItem._Load X) factory stationID recurse).1 = none ∧
    (Station.Load (InventoryItem._Load X) factory stationID recurse).2.cache = factory.cache ∧
    (Station.Load (InventoryItem._Load X) factory stationID recurse).2.Get stationID = none := by
  have hchain : (Station._Load_id X factory.types stationID).1 = none := by
    unfold Station._Load_id
    cases hitem : X.GetItem stationID with
    | none => rfl
    | some data =>
      rcases htype : X.LoadStationType factory.types (X.typeID data) with ⟨_ | type, types1⟩
      · simp [htype]
      · cases hcel : X.GetCelestialObject stationID with
        | none => simp [Station._Load_data, htype, hcel]
        | some cData =>
          cases hst : X.GetStation stationID with
          | none => simp [Station._Load_data, Station._Load_cData, htype, hcel, hst]
          | some stData => simp [hitem, hcel, hst] at habsent
  rcases hload : Station._Load_id X factory.types stationID with ⟨r, types1⟩
  rw [hload] at hchain
  simp only at hchain
  subst hchain
  simp only [ItemFactory.Get] at hmiss
  simp [Station.Load, InventoryItem._Load, ItemFactory.Get, hmiss, hload]

/-- Witness of C7: entity 900001 has no station row; loading it into the empty cache gives
NULL and leaves no entry for 900001. -/
theorem Station_Load_layer_absent_witness :
    (Station.Load (InventoryItem._Load scenarioEntities) emptyFactory 900001 true).1 = none ∧
    (Station.Load (InventoryItem._Load scenarioEntities) emptyFactory 900001 true).2.Get 900001
      = none :=
  match Station_Load_layer_absent scenarioEntities emptyFactory 900001 true rfl
    (Or.inr (Or.inr rfl)) with
  | ⟨hresult, _, hentry⟩ => ⟨hresult, hentry⟩

/-- C8. Unimplemented operation: for every service object, every call argument and every
log so far, `Handle_GetMyCourierMissions` returns the null result and appends exactly one
log record, of category SERVICE__ERROR, saying "GetMyCourierMissions unimplemented". -/
theorem Handle_GetMyCourierMissions_null {S A PyRep : Type} (self : S) (call : A)
    (log : List LogRecord) :
    (MissionMgrService.Handle_GetMyCourierMissions self call log : PyResult PyRep ×
      List LogRecord) =
      (none, log ++ [⟨LogCall.codelog, LogType.SERVICE__ERROR,
        "GetMyCourierMissions unimplemented", []⟩]) :=
  rfl

/-- C9. `Station::Load` is the generic entity loader at `Station`: whatever
`InventoryItem::_Load<Station>` is, `Station::Load(factory, stationID, recurse)` is its
result for the same factory, identifier and flag, and leaving the flag out is passing
`false`. -/
theorem Station_Load_eq_generic {F S : Type}
    (InventoryItem_Load : F → Nat → Bool → Option S × F) (factory : F) (stationID : Nat)
    (recurse : Bool) :
    Station.Load InventoryItem_Load factory stationID recurse =
      InventoryItem_Load factory stationID recurse ∧
    Station.Load InventoryItem_Load factory stationID =
      InventoryItem_Load factory stationID false :=
  ⟨rfl, rfl⟩

/-- C10. No layer is skipped after construction: the virtual `Station::_Load(recurse)`
returns what `CelestialObject::_Load(recurse)` returns on its base sub-object, with the
same flag (`false` when left out), leaves the world as that call leaves it, and changes
nothing of the station but that sub-object; the virtual `StationType::_Load(factory)` does
the same with `Type::_Load(factory)`. -/
theorem virtual_Load_delegates {W C F T : Type}
    (CelestialObject_Load : C → Bool → W → Bool × C × W) (Type_Load : T → F → Bool × T × F)
    (world : W) (station : Station C) (recurse : Bool) (type : StationType T) (factory : F) :
    (Station._Load_virtual CelestialObject_Load world station recurse).1 =
      (CelestialObject_Load station.toCelestialObject recurse world).1 ∧
    (Station._Load_virtual CelestialObject_Load world station recurse).2.1 =
      { station with toCelestialObject :=
          (CelestialObject_Load station.toCelestialObject recurse world).2.1 } ∧
    (Station._Load_virtual CelestialObject_Load world station recurse).2.2 =
      (CelestialObject_Load station.toCelestialObject recurse world).2.2 ∧
    Station._Load_virtual CelestialObject_Load world station =
      Station._Load_virtual CelestialObject_Load world station false ∧
    (StationType._Load_virtual Type_Load type factory).1 =
      (Type_Load type.toType factory).1 ∧
    (StationType._Load_virtual Type_Load type factory).2.1 =
      { type with toType := (Type_Load type.toType factory).2.1 } ∧
    (StationType._Load_virtual Type_Load type factory).2.2 =
      (Type_Load type.toType factory).2.2 :=
  ⟨rfl, rfl, rfl, rfl, rfl, rfl, rfl⟩

end EVEmu
